import Mathlib

/-!
Shallow embedding of the Railway-Complaint-AI client code
(src/client/src and the AdminDashboard component), with theorems
checking the specification's claims about it.  Numeric payloads
(coordinates, accuracy) are only ever copied by this code, never
computed with, so they are carried by `Int`.
-/

namespace RailwayComplaint

/-! ### JavaScript string primitives -/

/-- The WHATWG/ECMAScript white-space set used by `String.prototype.trim`. -/
def isJSWhitespace (c : Char) : Bool :=
  c.val = 0x09 || c.val = 0x0A || c.val = 0x0B || c.val = 0x0C || c.val = 0x0D ||
  c.val = 0x20 || c.val = 0xA0 || c.val = 0x1680 ||
  (0x2000 ≤ c.val && c.val ≤ 0x200A) ||
  c.val = 0x2028 || c.val = 0x2029 || c.val = 0x202F || c.val = 0x205F ||
  c.val = 0x3000 || c.val = 0xFEFF

/-- JavaScript `s.trim()`: strip leading and trailing white space. -/
def jsTrim (s : String) : String :=
  ⟨((s.data.dropWhile isJSWhitespace).reverse.dropWhile isJSWhitespace).reverse⟩

/-- JavaScript truthiness of a possibly-absent string: `null`/`undefined`
and the empty string are falsy, every other string is truthy. -/
def jsTruthy : Option String → Bool
  | none => false
  | some s => !(s == "")

/-- JavaScript `a || b` on a string `a` with a string fallback `b`. -/
def jsOrS (a b : String) : String := if a = "" then b else a

/-- JavaScript `a || b` where `a` may be `null`/`undefined`. -/
def jsOr (a : Option String) (b : String) : String :=
  match a with
  | none => b
  | some s => jsOrS s b

/-! ### Data model (spec section 3, shapes observed in the client code) -/

/-- Normalized train-detail fields returned by ticket extraction. -/
structure TrainDetails where
  trainNumber : Option String := none
  trainName : Option String := none
  coachNumber : Option String := none
  seatNumber : Option String := none
  boardingStation : Option String := none
  destinationStation : Option String := none
deriving DecidableEq, Repr

/-- A location value held in ComplaintForm state: either the server's
resolved location or the raw-coordinates fallback object holding only
latitude, longitude and accuracyM (its other fields absent). -/
structure LocationInfo where
  latitude : Int
  longitude : Int
  accuracyM : Option Int := none
  nearestStation : Option String := none
  stationProximityKm : Option Int := none
deriving DecidableEq, Repr

/-- A complaint record as the admin dashboard sees it. -/
structure Complaint where
  complaintId : String
  status : String
  department : String
  issueCategory : String := ""
  priority : String := ""
  location : Option LocationInfo := none
  trainDetails : Option TrainDetails := none
deriving DecidableEq, Repr

/-- A user as held by AuthContext. -/
structure User where
  id : String := ""
  role : String
deriving DecidableEq, Repr

/-! ### AuthContext.js and App.js routing -/

/-- AuthContext.js line 39:
`const isAdmin = user && (user.role === 'admin' || user.role === 'department');`
(`user` is `null` when logged out; the truthiness of the JS value is the Bool). -/
def isAdmin (user : Option User) : Bool :=
  match user with
  | none => false
  | some u => u.role == "admin" || u.role == "department"

/-- What a ProtectedRoute renders. -/
inductive RouteRender where
  | loadingView
  | redirectLogin
  | redirectHome
  | children
deriving DecidableEq, Repr

/-- App.js lines 72-78: the ProtectedRoute component with its adminOnly flag. -/
def ProtectedRoute (loading : Bool) (user : Option User) (adminOnly : Bool) : RouteRender :=
  if loading then .loadingView
  else if user.isNone then .redirectLogin
  else if adminOnly && !(isAdmin user) then .redirectHome
  else .children

/-! ### AdminDashboard component -/

/-- AdminDashboard line 74: `const STATUS_OPTIONS = ['pending', 'in_progress', 'resolved'];` -/
def STATUS_OPTIONS : List String := ["pending", "in_progress", "resolved"]

/-- AdminDashboard lines 183-185: the status select rendered for a
complaint card lists exactly STATUS_OPTIONS, independently of the
complaint's current status. -/
def statusSelectValues (_c : Complaint) : List String := STATUS_OPTIONS

/-- The AdminDashboard component state relevant to assignment and status
changes: the loaded complaint list, the per-complaint department input
text, and the in-flight assignment marker. -/
structure AdminState where
  complaints : List Complaint
  assignDeptByComplaint : List (String × String) := []
  assigning : Option String := none
deriving DecidableEq, Repr

/-- AdminDashboard line 127: `assignDeptByComplaint[complaintId] || ''`. -/
def lookupInput (m : List (String × String)) (cid : String) : String :=
  (m.lookup cid).getD ""

/-- The observable effect of handleAssign: either nothing is sent, or an
assign request for a complaint id with a department string is issued. -/
inductive AssignAction where
  | noop
  | request (complaintId : String) (department : String)
deriving DecidableEq, Repr

/-- AdminDashboard lines 126-137 up to the request dispatch: trim the
input for the complaint; on an empty result return early, otherwise mark
the complaint as assigning and issue the request with the trimmed string. -/
def handleAssign (st : AdminState) (cid : String) : AssignAction × AdminState :=
  let dept := jsTrim (lookupInput st.assignDeptByComplaint cid)
  if dept = "" then (.noop, st)
  else (.request cid dept, { st with assigning := some cid })

/-- AdminDashboard line 121 (also line 132): replace the entries whose
complaintId matches by the complaint returned from the server. -/
def updateComplaintList (l : List Complaint) (cid : String) (ret : Complaint) : List Complaint :=
  l.map (fun c => if c.complaintId = cid then ret else c)

/-- AdminDashboard lines 118-124: the state update applied when
adminSetStatus resolves with the updated complaint. -/
def handleStatusChangeSuccess (st : AdminState) (cid : String) (ret : Complaint) : AdminState :=
  { st with complaints := updateComplaintList st.complaints cid ret }

/-! ### ComplaintForm component -/

/-- The ComplaintForm component state (files carried by name). -/
structure ComplaintFormState where
  submitting : Bool := false
  image : Option String := none
  imagePreview : Option String := none
  additionalText : String := ""
  location : Option LocationInfo := none
  locationError : Option String := none
  locationLoading : Bool := false
  trainDetails : Option TrainDetails := none
  ticketFile : Option String := none
  ticketLoading : Bool := false
  ticketError : Option String := none
deriving DecidableEq, Repr

/-- The body of the extractTicket response: `data.trainDetails`. -/
structure TicketResponse where
  trainDetails : Option TrainDetails := none
deriving DecidableEq, Repr

/-- ComplaintForm lines 192-207 (handleTicketChange), with the awaited
extractTicket outcome made an explicit argument: on success store the
returned train details; on failure record the error message (falling
back to a fixed one) and clear trainDetails; a missing file is a no-op. -/
def handleTicketChange (st : ComplaintFormState) (file : Option String)
    (result : Except String TicketResponse) : ComplaintFormState :=
  match file with
  | none => st
  | some f =>
    match result with
    | .ok data =>
        { st with ticketError := none, ticketFile := some f,
                  trainDetails := data.trainDetails, ticketLoading := false }
    | .error msg =>
        { st with ticketFile := some f,
                  ticketError := some (jsOrS msg "Ticket OCR failed"),
                  trainDetails := none, ticketLoading := false }

/-- A device geolocation fix: `pos.coords`. -/
structure GeoPosition where
  latitude : Int
  longitude : Int
  accuracy : Int
deriving DecidableEq, Repr

/-- The options object passed to `navigator.geolocation.getCurrentPosition`. -/
structure GeoOptions where
  enableHighAccuracy : Bool
  timeout : Nat
  maximumAge : Nat
deriving DecidableEq, Repr

/-- What captureLocation does before any callback fires. -/
inductive CaptureAction where
  | geoUnsupportedError
  | requestPosition (options : GeoOptions)
deriving DecidableEq, Repr

/-- ComplaintForm lines 150-158 and 178: captureLocation either reports
that geolocation is unsupported or requests the current position with
the literal options object of line 178. -/
def captureLocationStart (geolocationSupported : Bool) : CaptureAction :=
  if geolocationSupported then
    .requestPosition { enableHighAccuracy := true, timeout := 10000, maximumAge := 0 }
  else .geoUnsupportedError

/-- ComplaintForm lines 159-172: the success callback of
getCurrentPosition, with the awaited resolveLocation outcome explicit.
locationError was cleared at the start of captureLocation (line 151);
on resolution failure the fixed message is set and the raw coordinates
are stored as the location. -/
def captureLocationResolve (st : ComplaintFormState) (pos : GeoPosition)
    (res : Except String LocationInfo) : ComplaintFormState :=
  match res with
  | .ok loc =>
      { st with locationError := none, location := some loc, locationLoading := false }
  | .error _ =>
      { st with
          locationError := some "Could not resolve railway context.",
          location := some { latitude := pos.latitude, longitude := pos.longitude,
                             accuracyM := some pos.accuracy },
          locationLoading := false }

/-- A value appended to the multipart form data. -/
inductive FormValue where
  | file (name : String)
  | str (s : String)
  | num (n : Int)
  | json (td : TrainDetails)
deriving DecidableEq, Repr

/-- ComplaintForm lines 215-225: the FormData built by handleSubmit once
an image is present. -/
def buildFormData (st : ComplaintFormState) (img : String) : List (String × FormValue) :=
  [("image", FormValue.file img)]
  ++ (if jsTrim st.additionalText = "" then []
      else [("text", FormValue.str (jsTrim st.additionalText))])
  ++ (match st.location with
      | none => []
      | some loc =>
          [("latitude", FormValue.num loc.latitude),
           ("longitude", FormValue.num loc.longitude)]
          ++ (match loc.accuracyM with
              | none => []
              | some a => [("accuracy_m", FormValue.num a)]))
  ++ (match st.trainDetails with
      | none => []
      | some td => [("train_details", FormValue.json td)])

/-- The observable effect of the submit handler: blocked (alert, no
request) or a dispatched submission with its form data. -/
inductive SubmitAction where
  | blocked
  | submit (formData : List (String × FormValue))
deriving DecidableEq, Repr

/-- ComplaintForm lines 209-228: with no image selected the handler
alerts and returns without any request; otherwise it dispatches
submitComplaint with the built form data. -/
def handleSubmit (st : ComplaintFormState) : SubmitAction :=
  match st.image with
  | none => .blocked
  | some img => .submit (buildFormData st img)

/-- ComplaintForm line 335: `disabled=!image or loading or submitting`. -/
def submitButtonDisabled (st : ComplaintFormState) (loading : Bool) : Bool :=
  st.image.isNone || loading || st.submitting

/-! ### api/client.js -/

/-- The error-relevant fields of a parsed response body; a body that
fails to parse yields both fields absent (client.js line 12). -/
structure ServerData where
  error : Option String := none
  message : Option String := none
deriving DecidableEq, Repr

/-- An HTTP response as the api wrapper observes it. -/
structure HttpResponse where
  ok : Bool
  data : ServerData
deriving DecidableEq, Repr

/-- client.js lines 8-10: spread the caller's headers and, when the
stored token is truthy, set the Authorization header (later entries of
the association list override earlier ones, like JS object assignment). -/
def requestHeaders (baseHeaders : List (String × String)) (token : Option String) :
    List (String × String) :=
  if jsTruthy token then
    baseHeaders ++ [("Authorization", "Bearer " ++ token.getD "")]
  else baseHeaders

/-- client.js lines 11-14: on a non-ok response throw an Error with
message `data.error or data.message or 'Request failed'`, else return
the parsed data. -/
def api (resp : HttpResponse) : Except String ServerData :=
  if resp.ok then .ok resp.data
  else .error (jsOr resp.data.error (jsOr resp.data.message "Request failed"))

/-! ### HomePage (App.js lines 33-50) -/

/-- The HomePage result state. -/
structure HomeState where
  complaint : Option Complaint := none
  error : Option String := none
deriving DecidableEq, Repr

/-- App.js lines 37-45: the onSubmit callback; a truthy errorMessage
stores the error and clears the complaint, otherwise the complaint is
stored and the error cleared. -/
def homeHandleSubmit (_s : HomeState) (complaintData : Option Complaint)
    (errorMessage : Option String) : HomeState :=
  if jsTruthy errorMessage then { complaint := none, error := errorMessage }
  else { complaint := complaintData, error := none }

/-- App.js lines 47-50: handleReset clears both result fields. -/
def homeHandleReset (_s : HomeState) : HomeState :=
  { complaint := none, error := none }

/-- At most one of the complaint result and the error message is set. -/
def resultMutex (s : HomeState) : Bool :=
  s.complaint.isNone || s.error.isNone

/-! ### Helper lemmas -/

/-- When trainDetails is cleared, no entry of the built form data has
the train_details key. -/
theorem buildFormData_no_train_key (st : ComplaintFormState) (img : String)
    (h : st.trainDetails = none) (p : String × FormValue)
    (hp : p ∈ buildFormData st img) : p.1 ≠ "train_details" := by
  intro hkey
  unfold buildFormData at hp
  rw [h] at hp
  simp only [List.mem_append, List.mem_cons, List.not_mem_nil, or_false] at hp
  rcases hp with (hp | hp) | hp
  · rw [hp] at hkey
    simp at hkey
  · split at hp
    · simp at hp
    · simp at hp
      rw [hp] at hkey
      simp at hkey
  · split at hp
    · simp at hp
    · simp only [List.mem_append, List.mem_cons, List.not_mem_nil, or_false] at hp
      rcases hp with (hp | hp) | hp
      · rw [hp] at hkey
        simp at hkey
      · rw [hp] at hkey
        simp at hkey
      · split at hp
        · simp at hp
        · simp at hp
          rw [hp] at hkey
          simp at hkey

/-- A JavaScript or-chain ending in a non-empty fallback is non-empty. -/
theorem jsOr_ne_of_ne (a : Option String) (b : String) (hb : b ≠ "") :
    jsOr a b ≠ "" := by
  cases a with
  | none => simpa [jsOr]
  | some s =>
      simp only [jsOr, jsOrS]
      split <;> simp_all

/-! ### Theorems for the claims -/

/-- Claim C1: with a department input that is empty or all white space
after trimming, handleAssign is a no-op — no request is issued and the
state (hence every stored department) is unchanged; with a non-blank
input the request carries the trimmed string, and the dispatch itself
leaves the complaint list untouched. -/
theorem handleAssign_blank_noop (st : AdminState) (cid : String) :
    (jsTrim (lookupInput st.assignDeptByComplaint cid) = "" →
      handleAssign st cid = (AssignAction.noop, st)) ∧
    (jsTrim (lookupInput st.assignDeptByComplaint cid) ≠ "" →
      (handleAssign st cid).1 =
        AssignAction.request cid (jsTrim (lookupInput st.assignDeptByComplaint cid)) ∧
      (handleAssign st cid).2.complaints = st.complaints) := by
  constructor
  · intro h
    simp [handleAssign, h]
  · intro h
    simp [handleAssign, h]

/-- Witness for C1: both branches exercised at concrete inputs. -/
theorem handleAssign_blank_noop_witness :
    handleAssign { complaints := [], assignDeptByComplaint := [("c1", "   ")],
                   assigning := none } "c1"
      = (AssignAction.noop, { complaints := [], assignDeptByComplaint := [("c1", "   ")],
                              assigning := none }) ∧
    (handleAssign { complaints := [], assignDeptByComplaint := [("c1", " Electrical ")],
                    assigning := none } "c1").1
      = AssignAction.request "c1" (jsTrim (lookupInput [("c1", " Electrical ")] "c1")) :=
  ⟨(handleAssign_blank_noop _ "c1").1 (by decide),
   ((handleAssign_blank_noop _ "c1").2 (by decide)).1⟩

/-- Claim C2: isAdmin holds exactly when a user is present with role
admin or department; whenever isAdmin is false (any other role, or no
user) the admin-only route never renders its children. -/
theorem isAdmin_iff_admin_or_department (u : Option User) :
    (isAdmin u = true ↔
      ∃ usr, u = some usr ∧ (usr.role = "admin" ∨ usr.role = "department")) ∧
    (isAdmin u = false →
      ∀ loading, ProtectedRoute loading u true ≠ RouteRender.children) := by
  constructor
  · cases u with
    | none => simp [isAdmin]
    | some usr => simp [isAdmin]
  · intro h loading
    cases u with
    | none => cases loading <;> simp [ProtectedRoute]
    | some usr => cases loading <;> simp [ProtectedRoute, h]

/-- Witness for C2: a rider is not an admin and is redirected off the
admin route. -/
theorem isAdmin_iff_admin_or_department_witness :
    isAdmin (some { id := "u1", role := "rider" }) = false ∧
    ProtectedRoute false (some { id := "u1", role := "rider" }) true
      ≠ RouteRender.children :=
  ⟨by decide,
   (isAdmin_iff_admin_or_department (some { id := "u1", role := "rider" })).2
     (by decide) false⟩

/-- Claim C6: the status values offered by the status-change select form
the closed set of pending, in_progress and resolved, for every
complaint, whatever its current status — the rendered options do not
depend on the complaint at all, so no forward-only ordering exists. -/
theorem statusSelectValues_closed (c : Complaint) (s : String) :
    (s ∈ statusSelectValues c ↔
      s = "pending" ∨ s = "in_progress" ∨ s = "resolved") ∧
    statusSelectValues c = STATUS_OPTIONS := by
  constructor
  · simp [statusSelectValues, STATUS_OPTIONS]
  · rfl

/-- Claim C9: captureLocation requests the device position with exactly
enableHighAccuracy true, a 10000 ms timeout and maximumAge 0 — the only
explicit time bound carried on the location-resolution path. -/
theorem captureLocation_geoOptions :
    ∃ opts, captureLocationStart true = CaptureAction.requestPosition opts ∧
      opts.timeout = 10000 ∧ opts.enableHighAccuracy = true ∧ opts.maximumAge = 0 :=
  ⟨{ enableHighAccuracy := true, timeout := 10000, maximumAge := 0 },
   rfl, rfl, rfl, rfl⟩

/-- Claim C10: every handler of the HomePage result state reestablishes
the mutual exclusion of complaint and error — a falsy error message
(success) clears the error, a truthy one (failure) clears the
complaint, and reset clears both. -/
theorem homePage_result_mutex (s : HomeState) (cd : Option Complaint)
    (em : Option String) :
    resultMutex (homeHandleSubmit s cd em) = true ∧
    resultMutex (homeHandleReset s) = true ∧
    (jsTruthy em = false → (homeHandleSubmit s cd em).error = none) ∧
    (jsTruthy em = true → (homeHandleSubmit s cd em).complaint = none) ∧
    (homeHandleReset s).complaint = none ∧
    (homeHandleReset s).error = none := by
  refine ⟨?_, rfl, ?_, ?_, rfl, rfl⟩
  · by_cases h : jsTruthy em = true <;> simp [homeHandleSubmit, resultMutex, h]
  · intro h; simp [homeHandleSubmit, h]
  · intro h; simp [homeHandleSubmit, h]

/-- Witness for C10: a failed submission clears the complaint, a
successful one clears the error. -/
theorem homePage_result_mutex_witness :
    (homeHandleSubmit { complaint := none, error := none } none
        (some "Request failed")).complaint = none ∧
    (homeHandleSubmit { complaint := none, error := none }
        (some { complaintId := "c1", status := "pending", department := "d" })
        none).error = none :=
  ⟨(homePage_result_mutex _ none (some "Request failed")).2.2.2.1 (by decide),
   (homePage_result_mutex _ _ none).2.2.1 (by decide)⟩

/-- Claim C3: a failed ticket extraction clears trainDetails to null,
and a later submit still dispatches (never aborts) with a form
omitting the train_details field. -/
theorem ticketFailure_nonfatal (st : ComplaintFormState) (f msg : String) :
    (handleTicketChange st (some f) (Except.error msg)).trainDetails = none ∧
    (∀ img, st.image = some img →
      ∃ fd, handleSubmit (handleTicketChange st (some f) (Except.error msg))
              = SubmitAction.submit fd ∧
            ∀ p ∈ fd, p.1 ≠ "train_details") := by
  refine ⟨rfl, ?_⟩
  intro img himg
  have h1 : (handleTicketChange st (some f) (Except.error msg)).image = some img := by
    simpa [handleTicketChange] using himg
  refine ⟨buildFormData (handleTicketChange st (some f) (Except.error msg)) img, ?_, ?_⟩
  · unfold handleSubmit
    rw [h1]
  · intro p hp
    exact buildFormData_no_train_key _ img rfl p hp

/-- Witness for C3: with an issue image selected, a failed extraction
still leads to a dispatched submission. -/
theorem ticketFailure_nonfatal_witness :
    (handleTicketChange { image := some "issue.png" } (some "ticket.png")
        (Except.error "e")).trainDetails = none ∧
    handleSubmit (handleTicketChange { image := some "issue.png" } (some "ticket.png")
        (Except.error "e")) ≠ SubmitAction.blocked := by
  refine ⟨(ticketFailure_nonfatal { image := some "issue.png" } "ticket.png" "e").1, ?_⟩
  obtain ⟨fd, hfd, -⟩ :=
    (ticketFailure_nonfatal { image := some "issue.png" } "ticket.png" "e").2
      "issue.png" rfl
  rw [hfd]
  simp

/-- Claim C4: when railway-context resolution fails, the raw
coordinates from the device are retained as the location (no resolved
station), and submission is not blocked: the dispatched form still
carries those coordinates. -/
theorem locationFailure_soft (st : ComplaintFormState) (pos : GeoPosition)
    (msg : String) :
    (captureLocationResolve st pos (Except.error msg)).location =
      some { latitude := pos.latitude, longitude := pos.longitude,
             accuracyM := some pos.accuracy, nearestStation := none,
             stationProximityKm := none } ∧
    (∀ img, st.image = some img →
      ∃ fd, handleSubmit (captureLocationResolve st pos (Except.error msg))
              = SubmitAction.submit fd ∧
            ("latitude", FormValue.num pos.latitude) ∈ fd ∧
            ("longitude", FormValue.num pos.longitude) ∈ fd) := by
  refine ⟨rfl, ?_⟩
  intro img himg
  have h1 : (captureLocationResolve st pos (Except.error msg)).image = some img := by
    simpa [captureLocationResolve] using himg
  refine ⟨buildFormData (captureLocationResolve st pos (Except.error msg)) img, ?_, ?_, ?_⟩
  · unfold handleSubmit
    rw [h1]
  · simp [buildFormData, captureLocationResolve]
  · simp [buildFormData, captureLocationResolve]

/-- Witness for C4: concrete coordinates survive a failed resolution
and the submission goes out. -/
theorem locationFailure_soft_witness :
    (captureLocationResolve { image := some "issue.png" } ⟨11, 77, 5⟩
        (Except.error "e")).location
      = some { latitude := 11, longitude := 77, accuracyM := some 5,
               nearestStation := none, stationProximityKm := none } ∧
    handleSubmit (captureLocationResolve { image := some "issue.png" } ⟨11, 77, 5⟩
        (Except.error "e")) ≠ SubmitAction.blocked := by
  refine ⟨(locationFailure_soft { image := some "issue.png" } ⟨11, 77, 5⟩ "e").1, ?_⟩
  obtain ⟨fd, hfd, -, -⟩ :=
    (locationFailure_soft { image := some "issue.png" } ⟨11, 77, 5⟩ "e").2
      "issue.png" rfl
  rw [hfd]
  simp

/-- Claim C5: after a status change resolves, every list entry whose
complaintId differs from the target is unchanged, and an entry with the
target id is replaced by the complaint returned from the operation. -/
theorem handleStatusChange_frame (st : AdminState) (cid : String) (ret : Complaint)
    (i : Nat) (hi : i < st.complaints.length)
    (hi2 : i < (handleStatusChangeSuccess st cid ret).complaints.length) :
    (handleStatusChangeSuccess st cid ret).complaints.get ⟨i, hi2⟩ =
      if (st.complaints.get ⟨i, hi⟩).complaintId = cid then ret
      else st.complaints.get ⟨i, hi⟩ := by
  simp [handleStatusChangeSuccess, updateComplaintList, List.get_eq_getElem,
    List.getElem_map]

/-- Witness for C5: in a two-complaint list, updating the complaint
with id a leaves the complaint with id b unchanged. -/
theorem handleStatusChange_frame_witness :
    (handleStatusChangeSuccess
        { complaints :=
            [{ complaintId := "a", status := "pending", department := "d" },
             { complaintId := "b", status := "pending", department := "d" }],
          assignDeptByComplaint := [], assigning := none }
        "a" { complaintId := "a", status := "in_progress", department := "d" }).complaints.get
        ⟨1, by decide⟩
      = { complaintId := "b", status := "pending", department := "d" } :=
  (handleStatusChange_frame
      { complaints :=
          [{ complaintId := "a", status := "pending", department := "d" },
           { complaintId := "b", status := "pending", department := "d" }],
        assignDeptByComplaint := [], assigning := none }
      "a" { complaintId := "a", status := "in_progress", department := "d" }
      1 (by decide) (by decide)).trans (by decide)

/-- Claim C7: with no image the submit handler is blocked (and the
submit button is disabled), and every dispatched submission comes from
a state with an image and carries the image field in its form data. -/
theorem submit_requires_image (st : ComplaintFormState) (loading : Bool) :
    (st.image = none →
      handleSubmit st = SubmitAction.blocked ∧
      submitButtonDisabled st loading = true) ∧
    (∀ fd, handleSubmit st = SubmitAction.submit fd →
      ∃ img, st.image = some img ∧ ("image", FormValue.file img) ∈ fd) := by
  constructor
  · intro h
    constructor
    · unfold handleSubmit
      rw [h]
    · simp [submitButtonDisabled, h]
  · intro fd hfd
    rcases himg : st.image with _ | img
    · unfold handleSubmit at hfd
      rw [himg] at hfd
      cases hfd
    · refine ⟨img, rfl, ?_⟩
      unfold handleSubmit at hfd
      rw [himg] at hfd
      injection hfd with h2
      subst h2
      simp [buildFormData]

/-- Witness for C7: the empty form state is blocked and its button is
disabled. -/
theorem submit_requires_image_witness :
    handleSubmit ({ } : ComplaintFormState) = SubmitAction.blocked ∧
    submitButtonDisabled ({ } : ComplaintFormState) false = true :=
  (submit_requires_image { } false).1 rfl

/-- Claim C8: a non-ok response always yields an Error whose message is
the error field, else the message field, else the non-empty fallback
Request failed — in particular the reason is never the empty string —
and a truthy stored token puts a bearer Authorization header on the
request. -/
theorem api_error_reason_and_auth (resp : HttpResponse)
    (base : List (String × String)) (token : Option String) (t : String) :
    (resp.ok = false →
      api resp = Except.error
        (jsOr resp.data.error (jsOr resp.data.message "Request failed")) ∧
      ∀ msg, api resp = Except.error msg → msg ≠ "") ∧
    (token = some t → t ≠ "" →
      ("Authorization", "Bearer " ++ t) ∈ requestHeaders base token) := by
  constructor
  · intro h
    constructor
    · simp [api, h]
    · intro msg hm
      have hmsg : msg = jsOr resp.data.error (jsOr resp.data.message "Request failed") := by
        simp [api, h] at hm
        exact hm.symm
      rw [hmsg]
      exact jsOr_ne_of_ne _ _ (jsOr_ne_of_ne _ _ (by decide))
  · intro ht hne
    subst ht
    have htr : jsTruthy (some t) = true := by simp [jsTruthy, hne]
    simp [requestHeaders, htr]

/-- Witness for C8: a failed response with an unparseable body reports
Request failed, and a stored token is sent as a bearer header. -/
theorem api_error_reason_and_auth_witness :
    api { ok := false, data := { error := none, message := none } }
      = Except.error (jsOr none (jsOr none "Request failed")) ∧
    ("Authorization", "Bearer " ++ "tok") ∈ requestHeaders [] (some "tok") :=
  ⟨((api_error_reason_and_auth
        { ok := false, data := { error := none, message := none } }
        [] (some "tok") "tok").1 rfl).1,
   (api_error_reason_and_auth
        { ok := false, data := { error := none, message := none } }
        [] (some "tok") "tok").2 rfl (by decide)⟩

end RailwayComplaint
